import Mathlib

set_option linter.unusedVariables false
set_option maxRecDepth 100000

/-!
Verification development for the natural-language personal-finance command
pipeline: a shallow embedding of the intent classifier (`agent.py`), the
deterministic pattern statement synthesizer
(`backend/routers/sql_generator.py`), the two statement executors
(`backend/routers/sql_executor.py` and the standalone `agent.py` executor),
the amount validator (`backend/schemas.py`) and the transaction response
formatter (`backend/routers/response_generator.py`).

Modelling conventions:
* Python floats are modelled as rationals (`ℚ`); the amounts handled by the
  code are short decimal literals, where the two agree.
* The SQLite store is modelled by an outcome oracle (`DbOutcome`): executing
  a statement either yields rows and a rowcount or raises an error message.
  Executors additionally return the list of store actions they performed
  (execute / commit / rollback / close), in order.
* The hosted completion service is modelled by an `Except String String`
  argument: `.ok s` is a reply with content `s`, `.error e` a raised
  exception.
* Python `re` pattern matching is embedded by a small backtracking regex
  engine (`RE`, `research`) reproducing Python semantics (leftmost match,
  left-first alternation, greedy / lazy quantifiers, `.` not matching
  newline); the six synthesis patterns are transliterated into its syntax.
-/

namespace FinanceApp

/-! ### Small string utilities -/

/-- `leadsWith pre l` : `pre` is an initial segment of `l`. -/
def leadsWith : List Char → List Char → Bool
  | [], _ => true
  | _ :: _, [] => false
  | p :: ps, c :: cs => p == c && leadsWith ps cs

/-- Substring containment on char lists (Python `sub in hay`). -/
def containsSubL (sub : List Char) : List Char → Bool
  | [] => leadsWith sub []
  | c :: cs => leadsWith sub (c :: cs) || containsSubL sub cs

/-- Substring containment on strings (Python `sub in hay`). -/
def containsSub (hay sub : String) : Bool :=
  containsSubL sub.data hay.data

/-- Whitespace test (Python `str.strip` / `\s`; inputs are ASCII, where
`Char.isWhitespace` agrees). -/
def isWs (c : Char) : Bool := c.isWhitespace

/-- ASCII lower-casing of one character (Python `str.lower`; inputs are
ASCII). -/
def lowerChar (c : Char) : Char :=
  if 65 ≤ c.toNat && c.toNat ≤ 90 then Char.ofNat (c.toNat + 32) else c

/-- ASCII upper-casing of one character (Python `str.upper`). -/
def upperChar (c : Char) : Char :=
  if 97 ≤ c.toNat && c.toNat ≤ 122 then Char.ofNat (c.toNat - 32) else c

/-- Python `s.lower()`. -/
def strLower (s : String) : String := String.mk (s.data.map lowerChar)

/-- Python `s.upper()`. -/
def strUpper (s : String) : String := String.mk (s.data.map upperChar)

/-- Strip whitespace from both ends of a char list. -/
def trimL (cs : List Char) : List Char :=
  ((cs.dropWhile isWs).reverse.dropWhile isWs).reverse

/-- Python `s.strip()`. -/
def strTrim (s : String) : String := String.mk (trimL s.data)

/-! ### Parameter maps and statement plans -/

/-- A Python value appearing in a statement's parameter map. -/
inductive PValue where
  | str : String → PValue
  | num : ℚ → PValue
  | int : Int → PValue
  | bool : Bool → PValue
  deriving DecidableEq, Repr

/-- A parameter map, as an insertion-ordered association list
(Python `dict`). -/
abbrev Params := List (String × PValue)

/-- Python `d[k] = v`: replace the value in place if the key is present,
otherwise append the binding. -/
def setParam (k : String) (v : PValue) : Params → Params
  | [] => [(k, v)]
  | (k', v') :: ps => if k' == k then (k, v) :: ps else (k', v') :: setParam k v ps

/-- Python `d.get(k)`. -/
def getParam (k : String) : Params → Option PValue
  | [] => none
  | (k', v') :: ps => if k' == k then some v' else getParam k ps

/-- The statement plan produced by the synthesizer
(`generate_sql_with_llm`'s result dictionary). -/
structure QueryResult where
  sql : String
  params : Params
  operation : String
  success : Bool
  error : Option String
  deriving DecidableEq, Repr

/-! ### The store model -/

/-- A row returned by the store. -/
abbrev Row := List PValue

/-- One store-level action performed by an executor, in order. -/
inductive DbAction where
  | exec : String → Params → DbAction
  | commit : DbAction
  | rollback : DbAction
  | closeCursor : DbAction
  | closeConn : DbAction
  deriving DecidableEq, Repr

/-- The store's reaction to executing one statement: either rows plus a
rowcount, or a raised error. -/
inductive DbOutcome where
  | ok : List Row → Int → DbOutcome
  | err : String → DbOutcome
  deriving DecidableEq, Repr

/-- The payload of an execution result: fetched rows or an affected-row
count. -/
inductive ExecData where
  | rows : List Row → ExecData
  | count : Int → ExecData
  deriving DecidableEq, Repr

/-- The result dictionary returned by the backend executor.  The failure
branches of the source never set an `operation` key, hence the `Option`. -/
structure ExecResult where
  success : Bool
  error : Option String
  operation : Option String
  data : Option ExecData
  deriving DecidableEq, Repr

/-! ### Backend executor (`backend/routers/sql_executor.py`,
`execute_sql_query`) -/

/-- Embedding of `execute_sql_query(query_info, user_id)` from
`backend/routers/sql_executor.py`.  Returns the result dictionary together
with the trace of store actions.  Mirrors the source: reject unsuccessful
plans before touching the store; inject `user_id` into the parameter map;
execute; for `select` fetch rows, otherwise commit and report
`cursor.rowcount`; on a store error roll back (for non-`select`) and wrap
the error message; always close cursor and connection. -/
def execute_sql_query (query_info : QueryResult) (user_id : Int)
    (db : DbOutcome) : ExecResult × List DbAction :=
  if query_info.success = false then
    ({ success := false
       error := some (query_info.error.getD "Failed to generate SQL query")
       operation := none, data := none }, [])
  else
    let sql := query_info.sql
    let params := setParam "user_id" (PValue.int user_id) query_info.params
    let operation := query_info.operation
    match db with
    | DbOutcome.ok rows rowcount =>
        if strLower operation == "select" then
          ({ success := true, error := none, operation := some operation
             data := some (ExecData.rows rows) },
           [DbAction.exec sql params, DbAction.closeCursor, DbAction.closeConn])
        else
          ({ success := true, error := none, operation := some operation
             data := some (ExecData.count rowcount) },
           [DbAction.exec sql params, DbAction.commit,
            DbAction.closeCursor, DbAction.closeConn])
    | DbOutcome.err msg =>
        if strLower operation != "select" then
          ({ success := false, error := some msg, operation := none
             data := none },
           [DbAction.exec sql params, DbAction.rollback,
            DbAction.closeCursor, DbAction.closeConn])
        else
          ({ success := false, error := some msg, operation := none
             data := none },
           [DbAction.exec sql params, DbAction.closeCursor, DbAction.closeConn])

/-! ### Standalone agent executor (`agent.py`, `execute_sql_query`) -/

/-- Greedy `\s*`: drop the longest whitespace run. -/
def dropWs : List Char → List Char
  | [] => []
  | c :: cs => if isWs c then dropWs cs else c :: cs

/-- Length of the longest whitespace run at the head. -/
def wsRun : List Char → Nat
  | [] => 0
  | c :: cs => if isWs c then wsRun cs + 1 else 0

/-- One step of `re.sub(r"^```sql\s*|\s*```$", "", query, flags=MULTILINE)`:
scan left to right; at a line start first try to delete ```` ```sql ````
followed by its whitespace run, otherwise try to delete a whitespace run
followed by ```` ``` ```` at a line end; else keep the character.  `fuel`
bounds the recursion (the scan consumes at least one character per step). -/
def fenceScan : Nat → Bool → List Char → List Char
  | 0, _, s => s
  | _ + 1, _, [] => []
  | fuel + 1, atLineStart, s@(c :: cs) =>
    if atLineStart && leadsWith "```sql".data s then
      let afterLit := s.drop 6
      let consumedWs := wsRun afterLit
      let rest := dropWs afterLit
      -- after the match, we are at a line start iff the last consumed
      -- character was a newline
      let lastNl :=
        if consumedWs > 0 then (afterLit.take consumedWs).getLast? == some '\n'
        else false
      fenceScan fuel lastNl rest
    else
      let run := wsRun s
      let afterRun := s.drop run
      if leadsWith "```".data afterRun &&
          ((afterRun.drop 3).isEmpty || (afterRun.drop 3).head? == some '\n') then
        fenceScan fuel false (afterRun.drop 3)
      else
        c :: fenceScan fuel (c == '\n') cs

/-- Embedding of the fence-stripping
`re.sub(r"^```sql\s*|\s*```$", "", query, flags=re.MULTILINE).strip()`
from `agent.py`. -/
def cleanQuery (query : String) : String :=
  strTrim (String.mk (fenceScan (query.data.length + 1) true query.data))

/-- The value returned by the standalone executor: fetched rows (for
`view`) or `cursor.rowcount` (otherwise). -/
inductive AgentData where
  | rows : List Row → AgentData
  | affected : Int → AgentData
  deriving DecidableEq, Repr

/-- Embedding of `execute_sql_query(query, operation_type)` from
`agent.py`.  `Except.error` models a raised `RuntimeError`.  Mirrors the
source: strip code fences; for declared `update`/`delete` statements whose
cleaned text has no `where`, close the connection and raise the safety
error without executing; otherwise execute; `view` fetches rows, every
other operation commits and returns the rowcount; a store error closes the
connection and raises a `RuntimeError` embedding the original query. -/
def agentExecuteSqlQuery (query : String) (operation_type : String)
    (db : DbOutcome) : Except String AgentData × List DbAction :=
  let cleaned := cleanQuery query
  if (operation_type == "update" || operation_type == "delete") &&
      !containsSub (strLower cleaned) "where" then
    (Except.error ("Safety Error: " ++ strUpper operation_type ++
        " statement without a WHERE clause detected.\nQuery: " ++ query),
     [DbAction.closeConn])
  else
    match db with
    | DbOutcome.ok rows rowcount =>
        if operation_type == "view" then
          (Except.ok (AgentData.rows rows),
           [DbAction.exec cleaned [], DbAction.closeConn])
        else
          (Except.ok (AgentData.affected rowcount),
           [DbAction.exec cleaned [], DbAction.commit, DbAction.closeConn])
    | DbOutcome.err msg =>
        (Except.error ("Database error: " ++ msg ++ "\nQuery: " ++ query),
         [DbAction.exec cleaned [], DbAction.closeConn])

/-! ### Intent classifier (`agent.py`, `classify_crud_intent`) -/

/-- The closed label set of `classify_crud_intent`. -/
def valid_intents : List String := ["create", "view", "update", "delete"]

/-- The conservative default label. -/
def default_intent : String := "view"

/-- Embedding of `classify_crud_intent(user_input)` from `agent.py`.  The
external completion call is modelled by its outcome `llm`: a raised
exception (`.error`) falls back to the default label; a reply has its
content stripped and lowercased, is validated against the closed label
set, and any other value is replaced by the default label. -/
def classify_crud_intent (llm : Except String String) : String :=
  match llm with
  | Except.error _ => default_intent
  | Except.ok content =>
      let intent := strLower (strTrim content)
      if valid_intents.contains intent then intent else default_intent

/-! ### A small backtracking regex engine with Python `re` semantics

Only the constructs used by the synthesizer's patterns are supported:
literals, character classes (`.` `\s` `\d` and explicit sets), alternation
(left-first), concatenation, capturing groups, greedy `?`, greedy `*`/`+`
and lazy `+?` over a character class, and `{n}` over a character class.
The matcher explores exactly the Python backtracking order (leftmost start
position; at one position, greedy quantifiers longest-first, lazy ones
shortest-first, alternatives left to right). -/

/-- The apostrophe character (for the `["\']` class of the patterns). -/
def squote : Char := Char.ofNat 39

/-- A character class. -/
inductive CharCls where
  | dot : CharCls
  | ws : CharCls
  | digit : CharCls
  | oneOf : List Char → CharCls
  deriving DecidableEq, Repr

/-- Membership in a character class (`.` does not match a newline). -/
def CharCls.test : CharCls → Char → Bool
  | CharCls.dot, c => c != '\n'
  | CharCls.ws, c => isWs c
  | CharCls.digit, c => c.isDigit
  | CharCls.oneOf l, c => l.contains c

/-- Regex syntax. -/
inductive RE where
  | lit : List Char → RE
  | cls : CharCls → RE
  | seq : RE → RE → RE
  | alt : RE → RE → RE
  | grp : Nat → RE → RE
  | opt : RE → RE
  | starC : CharCls → RE
  | plusC : CharCls → RE
  | lplusC : CharCls → RE
  | repC : CharCls → Nat → RE
  deriving DecidableEq, Repr

/-- Captured groups: most recent binding first. -/
abbrev Caps := List (Nat × List Char)

/-- Last value captured by group `i` (Python `m.group(i)`). -/
def getGroup (i : Nat) : Caps → Option (List Char)
  | [] => none
  | (j, g) :: rest => if j == i then some g else getGroup i rest

/-- First success of `f` over a list of candidates. -/
def firstSome (f : α → Option β) : List α → Option β
  | [] => none
  | a :: as => match f a with
    | some b => some b
    | none => firstSome f as

/-- Length of the longest run of class-`p` characters at the head. -/
def clsRun (p : CharCls) : List Char → Nat
  | [] => 0
  | c :: cs => if p.test c then clsRun p cs + 1 else 0

/-- Candidate consumption counts for a greedy quantifier over a class:
`hi, hi-1, …, lo`. -/
def greedyCounts (lo hi : Nat) : List Nat :=
  ((List.range (hi + 1 - lo)).map (fun i => hi - i)).filter (fun n => lo ≤ n)

/-- Candidate consumption counts for a lazy quantifier over a class:
`lo, lo+1, …, hi`. -/
def lazyCounts (lo hi : Nat) : List Nat :=
  (List.range (hi + 1 - lo)).map (fun i => lo + i)

/-- The backtracking matcher, in continuation-passing style: try to match
`r` at the head of `s` with captured groups `caps`, calling `k` on the
remaining suffix and updated captures for every admissible split, in
Python's exploration order; the first success wins. -/
def mmatch : RE → List Char → Caps → (List Char → Caps → Option σ) → Option σ
  | RE.lit l, s, caps, k =>
      if leadsWith l s then k (s.drop l.length) caps else none
  | RE.cls p, s, caps, k =>
      match s with
      | [] => none
      | c :: cs => if p.test c then k cs caps else none
  | RE.seq a b, s, caps, k =>
      mmatch a s caps (fun s' caps' => mmatch b s' caps' k)
  | RE.alt a b, s, caps, k =>
      match mmatch a s caps k with
      | some res => some res
      | none => mmatch b s caps k
  | RE.grp i r, s, caps, k =>
      mmatch r s caps
        (fun s' caps' => k s' ((i, s.take (s.length - s'.length)) :: caps'))
  | RE.opt r, s, caps, k =>
      match mmatch r s caps k with
      | some res => some res
      | none => k s caps
  | RE.starC p, s, caps, k =>
      firstSome (fun n => k (s.drop n) caps) (greedyCounts 0 (clsRun p s))
  | RE.plusC p, s, caps, k =>
      firstSome (fun n => k (s.drop n) caps) (greedyCounts 1 (clsRun p s))
  | RE.lplusC p, s, caps, k =>
      firstSome (fun n => k (s.drop n) caps) (lazyCounts 1 (clsRun p s))
  | RE.repC p n, s, caps, k =>
      if (s.take n).length == n && (s.take n).all p.test then
        k (s.drop n) caps
      else none

/-- Python `re.search`: try every start position left to right; on the
first that matches, return the matched text (`m.group(0)`) and the
captures. -/
def research (r : RE) : List Char → Option (List Char × Caps)
  | [] =>
      match mmatch r [] [] (fun rest caps => some (rest, caps)) with
      | some (_, caps) => some ([], caps)
      | none => none
  | c :: t =>
      match mmatch r (c :: t) [] (fun rest caps => some (rest, caps)) with
      | some (rest, caps) =>
          some ((c :: t).take ((c :: t).length - rest.length), caps)
      | none => research r t

/-- Right-nested concatenation of a list of regexes. -/
def seqs : List RE → RE
  | [] => RE.lit []
  | [r] => r
  | r :: rs => RE.seq r (seqs rs)

/-- Left-first alternation of a head and further alternatives. -/
def alts : RE → List RE → RE
  | r, [] => r
  | r, x :: xs => RE.alt r (alts x xs)

/-- A literal word. -/
def litS (s : String) : RE := RE.lit s.data

/-- The `["\']` class of the patterns. -/
def quoteCls : RE := RE.cls (CharCls.oneOf ['"', squote])

/-! ### The synthesizer's patterns (`backend/routers/sql_generator.py`) -/

/-- `(show|view|list|get|display).*(entries|transactions).*last\s+week` -/
def patShowTx : RE := seqs
  [RE.grp 1 (alts (litS "show") [litS "view", litS "list", litS "get", litS "display"]),
   RE.starC CharCls.dot,
   RE.grp 2 (alts (litS "entries") [litS "transactions"]),
   RE.starC CharCls.dot,
   litS "last", RE.plusC CharCls.ws, litS "week"]

/-- `(show|view|list|get|display).*(categories|category)` -/
def patShowCat : RE := seqs
  [RE.grp 1 (alts (litS "show") [litS "view", litS "list", litS "get", litS "display"]),
   RE.starC CharCls.dot,
   RE.grp 2 (alts (litS "categories") [litS "category"])]

/-- `(create|add|new|make).+category.+called.+["\'](.+)["\'].*(?:for|as).*(expense|income)` -/
def patAddCat : RE := seqs
  [RE.grp 1 (alts (litS "create") [litS "add", litS "new", litS "make"]),
   RE.plusC CharCls.dot, litS "category",
   RE.plusC CharCls.dot, litS "called",
   RE.plusC CharCls.dot, quoteCls,
   RE.grp 2 (RE.plusC CharCls.dot), quoteCls,
   RE.starC CharCls.dot,
   alts (litS "for") [litS "as"],
   RE.starC CharCls.dot,
   RE.grp 3 (alts (litS "expense") [litS "income"])]

/-- `\d+(?:\.\d{2})?` (the digits of an amount). -/
def decimalRE : RE :=
  RE.seq (RE.plusC CharCls.digit)
    (RE.opt (RE.seq (litS ".") (RE.repC CharCls.digit 2)))

/-- `(add|create|new|record|log)\s+(.+?)(?:\s+on\s+|\s+for\s+|\s+)(?:(\$\d+(?:\.\d{2})?)|(\d+(?:\.\d{2})?)\s*dollars?)` -/
def patAddTx : RE := seqs
  [RE.grp 1 (alts (litS "add") [litS "create", litS "new", litS "record", litS "log"]),
   RE.plusC CharCls.ws,
   RE.grp 2 (RE.lplusC CharCls.dot),
   alts (seqs [RE.plusC CharCls.ws, litS "on", RE.plusC CharCls.ws])
     [seqs [RE.plusC CharCls.ws, litS "for", RE.plusC CharCls.ws],
      RE.plusC CharCls.ws],
   RE.alt (RE.grp 3 (RE.seq (litS "$") decimalRE))
     (seqs [RE.grp 4 decimalRE, RE.starC CharCls.ws,
            litS "dollar", RE.opt (litS "s")])]

/-- `(update|change|rename|modify).+category.+["\'](.+)["\'].+to.+["\'](.+)["\']` -/
def patUpdCat : RE := seqs
  [RE.grp 1 (alts (litS "update") [litS "change", litS "rename", litS "modify"]),
   RE.plusC CharCls.dot, litS "category",
   RE.plusC CharCls.dot, quoteCls,
   RE.grp 2 (RE.plusC CharCls.dot), quoteCls,
   RE.plusC CharCls.dot, litS "to",
   RE.plusC CharCls.dot, quoteCls,
   RE.grp 3 (RE.plusC CharCls.dot), quoteCls]

/-- `(delete|remove|drop).+category.+["\'](.+)["\']` -/
def patDelCat : RE := seqs
  [RE.grp 1 (alts (litS "delete") [litS "remove", litS "drop"]),
   RE.plusC CharCls.dot, litS "category",
   RE.plusC CharCls.dot, quoteCls,
   RE.grp 2 (RE.plusC CharCls.dot), quoteCls]

/-- `\$?(\d+(?:\.\d{2})?)\s*(?:dollars?)?` (in `extract_amount`). -/
def amountRE : RE := seqs
  [RE.opt (litS "$"),
   RE.grp 1 decimalRE,
   RE.starC CharCls.ws,
   RE.opt (RE.seq (litS "dollar") (RE.opt (litS "s")))]

/-- `\d{4}-\d{2}-\d{2}` (in `extract_date`). -/
def dateRE : RE := seqs
  [RE.repC CharCls.digit 4, litS "-",
   RE.repC CharCls.digit 2, litS "-",
   RE.repC CharCls.digit 2]

/-! ### Amount and date extraction
(`backend/routers/sql_generator.py`) -/

/-- Numeric value of a digit string. -/
def digitsToNat (cs : List Char) : Nat :=
  cs.foldl (fun n c => n * 10 + (c.toNat - 48)) 0

/-- Value of a decimal literal matching `\d+(\.\d{2})?` (Python
`float(...)`, modelled exactly as a rational: the integer part plus the
two-digit fraction over 100). -/
def parseDecimal (cs : List Char) : ℚ :=
  let intPart := cs.takeWhile (fun c => c != '.')
  let rest := cs.dropWhile (fun c => c != '.')
  if rest.isEmpty then (digitsToNat intPart : ℚ)
  else mkRat (digitsToNat intPart * 100 + digitsToNat (rest.drop 1)) 100

/-- Embedding of `extract_amount(text)`: value of the first regex match's
group 1, or `0.0` when nothing matches. -/
def extract_amount (text : String) : ℚ :=
  match research amountRE text.data with
  | some (_, caps) =>
      match getGroup 1 caps with
      | some g => parseDecimal g
      | none => 0
  | none => 0

/-- A calendar date (`datetime.now()` is modelled by passing the current
date explicitly). -/
structure PDate where
  year : Nat
  month : Nat
  day : Nat
  deriving DecidableEq, Repr

/-- Gregorian leap year. -/
def isLeap (y : Nat) : Bool := (y % 4 == 0 && y % 100 != 0) || y % 400 == 0

/-- Days in a month. -/
def daysInMonth (y m : Nat) : Nat :=
  if m == 2 then (if isLeap y then 29 else 28)
  else if m == 4 || m == 6 || m == 9 || m == 11 then 30
  else 31

/-- The following calendar day (Python `timedelta(days=1)`). -/
def nextDay (d : PDate) : PDate :=
  if d.day < daysInMonth d.year d.month then
    { d with day := d.day + 1 }
  else if d.month < 12 then
    { d with month := d.month + 1, day := 1 }
  else
    { year := d.year + 1, month := 1, day := 1 }

/-- The preceding calendar day. -/
def prevDay (d : PDate) : PDate :=
  if d.day > 1 then
    { d with day := d.day - 1 }
  else if d.month > 1 then
    { d with month := d.month - 1, day := daysInMonth d.year (d.month - 1) }
  else
    { year := d.year - 1, month := 12, day := 31 }

/-- Zero-pad to two digits. -/
def pad2 (n : Nat) : String := if n < 10 then "0" ++ toString n else toString n

/-- Zero-pad to four digits. -/
def pad4 (n : Nat) : String :=
  if n < 10 then "000" ++ toString n
  else if n < 100 then "00" ++ toString n
  else if n < 1000 then "0" ++ toString n
  else toString n

/-- `strftime("%Y-%m-%d")`. -/
def fmtDate (d : PDate) : String :=
  pad4 d.year ++ "-" ++ pad2 d.month ++ "-" ++ pad2 d.day

/-- Embedding of `extract_date(text)`: recognize `today` / `yesterday` /
`tomorrow`, then an ISO date pattern, defaulting to the current date. -/
def extract_date (today : PDate) (text : String) : String :=
  let t := strLower text
  if containsSub t "today" then fmtDate today
  else if containsSub t "yesterday" then fmtDate (prevDay today)
  else if containsSub t "tomorrow" then fmtDate (nextDay today)
  else
    match research dateRE t.data with
    | some (m0, _) => String.mk m0
    | none => fmtDate today

/-! ### The pattern statement synthesizer
(`backend/routers/sql_generator.py`, `generate_sql_with_llm`) -/

/-- Statement template of the show-recent-transactions rule (verbatim,
including the indentation and trailing blanks of the Python triple-quoted
literal). -/
def sqlShowTx : String :=
  "\n                SELECT t.id, t.amount, t.date, t.description, t.is_recurring, \n                       t.recurrence_period, t.transaction_type, c.name as category_name\n                FROM transactions t\n                LEFT JOIN categories c ON t.category_id = c.id\n                WHERE t.user_id = :user_id \n                AND t.date >= date('now', '-7 days')\n                ORDER BY t.date DESC, t.id DESC\n            "

/-- Statement template of the show-categories rule. -/
def sqlShowCat : String :=
  "SELECT name, transaction_type FROM categories WHERE user_id = :user_id ORDER BY name"

/-- Statement template of the create-category rule. -/
def sqlAddCat : String :=
  "INSERT INTO categories (name, transaction_type, user_id) VALUES (:name, :type, :user_id)"

/-- Statement template of the add-transaction rule (verbatim; the category
is resolved by a fixed subquery on the category named `Other`). -/
def sqlAddTx : String :=
  "\n                INSERT INTO transactions \n                (amount, date, description, transaction_type, category_id, user_id, is_recurring) \n                VALUES \n                (:amount, :date, :description, :type, \n                 (SELECT id FROM categories WHERE name = 'Other' AND transaction_type = :type AND user_id = :user_id LIMIT 1),\n                 :user_id, false)\n            "

/-- Statement template of the update-category rule. -/
def sqlUpdCat : String :=
  "UPDATE categories SET name = :new_name WHERE name = :old_name AND user_id = :user_id"

/-- Statement template of the delete-category rule. -/
def sqlDelCat : String :=
  "DELETE FROM categories WHERE name = :name AND user_id = :user_id"

/-- The six fixed statement templates the pattern strategy can emit. -/
def sqlTemplates : List String :=
  [sqlShowTx, sqlShowCat, sqlAddCat, sqlAddTx, sqlUpdCat, sqlDelCat]

/-- Embedding of `generate_sql_with_llm(system_prompt, user_input)` from
`backend/routers/sql_generator.py`.  Despite its name the source never
contacts a completion service: it lowercases and strips the input, then
tries the six pattern rules top to bottom, the first match producing a
fixed statement template plus extracted parameters; no match yields a
failed plan.  `today` models `datetime.now()` inside `extract_date`. -/
def generate_sql_with_llm (today : PDate) (system_prompt user_input : String) :
    QueryResult :=
  let user_input := strTrim (strLower user_input)
  let s := user_input.data
  if (research patShowTx s).isSome then
    { sql := sqlShowTx, params := [], operation := "select"
      success := true, error := none }
  else if (research patShowCat s).isSome then
    { sql := sqlShowCat, params := [], operation := "select"
      success := true, error := none }
  else match research patAddCat s with
  | some (_, caps) =>
      let category_name := String.mk ((getGroup 2 caps).getD [])
      let transaction_type := strUpper (String.mk ((getGroup 3 caps).getD []))
      { sql := sqlAddCat
        params := [("name", PValue.str category_name),
                   ("type", PValue.str transaction_type)]
        operation := "insert", success := true, error := none }
  | none => match research patAddTx s with
    | some (_, caps) =>
        let description := strTrim (String.mk ((getGroup 2 caps).getD []))
        let amount := extract_amount user_input
        let date_str := extract_date today user_input
        { sql := sqlAddTx
          params := [("amount", PValue.num amount),
                     ("date", PValue.str date_str),
                     ("description", PValue.str description),
                     ("type", PValue.str "EXPENSE")]
          operation := "insert", success := true, error := none }
    | none => match research patUpdCat s with
      | some (_, caps) =>
          let old_name := String.mk ((getGroup 2 caps).getD [])
          let new_name := String.mk ((getGroup 3 caps).getD [])
          { sql := sqlUpdCat
            params := [("old_name", PValue.str old_name),
                       ("new_name", PValue.str new_name)]
            operation := "update", success := true, error := none }
      | none => match research patDelCat s with
        | some (_, caps) =>
            let category_name := String.mk ((getGroup 2 caps).getD [])
            { sql := sqlDelCat
              params := [("name", PValue.str category_name)]
              operation := "delete", success := true, error := none }
        | none =>
            { sql := "", params := [], operation := ""
              success := false, error := some "Could not understand the command" }

/-! ### Amount validation (`backend/schemas.py`, `TransactionBase`)

Python's `round(v, 2)` rounds half to even at two fractional digits; it is
modelled exactly on `ℚ` through integer arithmetic on numerator and
denominator (which also keeps every definition kernel-computable). -/

/-- `v * 100` rounded half-to-even to an integer (the amount in cents). -/
def roundHalfEvenCents (q : ℚ) : Int :=
  let n := q.num * 100
  let d := (q.den : Int)
  let f := Int.fdiv n d
  let r := n - d * f
  if 2 * r < d then f
  else if d < 2 * r then f + 1
  else if f % 2 = 0 then f else f + 1

/-- Python `round(v, 2)`. -/
def pyRound2 (q : ℚ) : ℚ := mkRat (roundHalfEvenCents q) 100

/-- Embedding of the `validate_amount` validator of `TransactionBase`
(`backend/schemas.py`): reject amounts above one billion, otherwise return
the amount rounded to two decimal places. -/
def validate_amount (v : ℚ) : Except String ℚ :=
  if v > 1000000000 then Except.error "Amount cannot exceed 1 billion"
  else Except.ok (pyRound2 v)

/-- The whole acceptance path for the `amount` field: the
`Field(gt=0)` constraint checked by pydantic, then `validate_amount`. -/
def acceptAmount (v : ℚ) : Except String ℚ :=
  if v ≤ 0 then Except.error "Transaction amount must be greater than 0"
  else validate_amount v

/-! ### Response formatter
(`backend/routers/response_generator.py`, `format_transaction_data`) -/

/-- Exact rational addition, computed on numerators and denominators
(extensionally equal to `+` on `ℚ`, see `ratAdd_eq`; used so that every
definition reduces inside the kernel). -/
def ratAdd (a b : ℚ) : ℚ := mkRat (a.num * b.den + b.num * a.den) (a.den * b.den)

/-- Exact rational subtraction (extensionally equal to `-` on `ℚ`). -/
def ratSub (a b : ℚ) : ℚ := mkRat (a.num * b.den - b.num * a.den) (a.den * b.den)

/-- Insert thousands separators into a digit string (Python `:,` format). -/
def commaGroup3 (s : List Char) : List Char :=
  (go s.reverse).reverse
where
  go : List Char → List Char
    | a :: b :: c :: d :: rest => a :: b :: c :: ',' :: go (d :: rest)
    | l => l

/-- Python `f"{q:,.2f}"`: round half-to-even to two decimals, group the
integer part with commas. -/
def moneyNum (q : ℚ) : String :=
  let c := roundHalfEvenCents q
  let a := c.natAbs
  (if c < 0 then "-" else "") ++
    String.mk (commaGroup3 (toString (a / 100)).data) ++ "." ++ pad2 (a % 100)

/-- Left-pad with blanks to width `w` (Python `:>w`). -/
def padLeft (w : Nat) (s : String) : String :=
  if s.data.length < w then
    String.mk (List.replicate (w - s.data.length) ' ') ++ s
  else s

/-- `strftime("%A")` day names, `0 = Sunday`. -/
def weekdayName (w : Nat) : String :=
  [ "Sunday", "Monday", "Tuesday", "Wednesday", "Thursday", "Friday",
    "Saturday" ].getD w ""

/-- `strftime("%B")` month names. -/
def monthName (m : Nat) : String :=
  [ "January", "February", "March", "April", "May", "June", "July",
    "August", "September", "October", "November", "December" ].getD (m - 1) ""

/-- Day of the week of a Gregorian date (Sakamoto's method, `0 = Sunday`). -/
def dayOfWeek (y m d : Nat) : Nat :=
  let t := [0, 3, 2, 5, 0, 3, 5, 1, 4, 6, 2, 4]
  let y' := if m < 3 then y - 1 else y
  (y' + y' / 4 + y' / 400 + t.getD (m - 1) 0 + d - y' / 100) % 7

/-- `strftime("%A, %B %d, %Y")` (`%d` is zero-padded). -/
def longDate (y m d : Nat) : String :=
  weekdayName (dayOfWeek y m d) ++ ", " ++ monthName m ++ " " ++ pad2 d ++
    ", " ++ pad4 y

/-- `datetime.strptime(s, "%Y-%m-%d")`, including the validity checks
(month and day ranges); `none` models the `ValueError` raised on
malformed input. -/
def parseISO (s : String) : Option (Nat × Nat × Nat) :=
  match s.data with
  | [y1, y2, y3, y4, '-', m1, m2, '-', d1, d2] =>
      if ([y1, y2, y3, y4, m1, m2, d1, d2].all Char.isDigit) then
        let y := digitsToNat [y1, y2, y3, y4]
        let m := digitsToNat [m1, m2]
        let d := digitsToNat [d1, d2]
        if 1 ≤ m && m ≤ 12 && 1 ≤ d && d ≤ daysInMonth y m then
          some (y, m, d)
        else none
      else none
  | _ => none

/-- One transaction row of the `SELECT` template, i.e. the `row_dict` the
formatter builds from the 8-tuple
`(id, amount, date, description, is_recurring, recurrence_period,
transaction_type, category_name)`. -/
structure TxRow where
  id : Int
  amount : ℚ
  date : String
  description : String
  is_recurring : Bool
  recurrence_period : Option String
  transaction_type : String
  category_name : Option String
  deriving DecidableEq, Repr

/-- How Python renders an optional string inside an f-string (`None`
prints as `"None"`). -/
def pyOptStr : Option String → String
  | some s => s
  | none => "None"

/-- Append a row to its date's group, preserving dict insertion order
(`transactions_by_date[date_str].append(row_dict)`). -/
def groupInsert (r : TxRow) : List (String × List TxRow) → List (String × List TxRow)
  | [] => [(r.date, [r])]
  | (d', rs) :: rest =>
      if d' == r.date then (d', rs ++ [r]) :: rest
      else (d', rs) :: groupInsert r rest

/-- The `transactions_by_date` dictionary, in key insertion order. -/
def groupByDate (rows : List TxRow) : List (String × List TxRow) :=
  rows.foldl (fun acc r => groupInsert r acc) []

/-- Dictionary lookup. -/
def lookupGroup (d : String) : List (String × List TxRow) → List TxRow
  | [] => []
  | (d', rs) :: rest => if d' == d then rs else lookupGroup d rest

/-- Lexicographic `≤` on char lists (Python string comparison). -/
def lexLe : List Char → List Char → Bool
  | [], _ => true
  | _ :: _, [] => false
  | a :: as, b :: bs => if a == b then lexLe as bs else decide (a.toNat < b.toNat)

/-- Stable insertion into a sorted list: `x` goes before the first
element it is `le`-related to. -/
def insertSortedBy (le : α → α → Bool) (x : α) : List α → List α
  | [] => [x]
  | y :: ys => if le x y then x :: y :: ys else y :: insertSortedBy le x ys

/-- Stable insertion sort (the stability and ordering of Python
`sorted`). -/
def sortBy (le : α → α → Bool) (l : List α) : List α :=
  l.foldr (insertSortedBy le) []

/-- `sorted(keys, reverse=True)` on date strings. -/
def sortDatesDesc (l : List String) : List String :=
  sortBy (fun a b => lexLe b.data a.data) l

/-- `sorted(rows, key=lambda x: x["transaction_type"])` (stable). -/
def sortRowsByType (l : List TxRow) : List TxRow :=
  sortBy (fun a b => lexLe a.transaction_type.data b.transaction_type.data) l

/-- The totals loop: fold over the rows in order, adding `EXPENSE`
amounts to the expense total and every other row to the income total.
Returns `(total_expense, total_income)`. -/
def totalsFold (rows : List TxRow) : ℚ × ℚ :=
  rows.foldl
    (fun acc r =>
      if r.transaction_type == "EXPENSE" then (ratAdd acc.1 r.amount, acc.2)
      else (acc.1, ratAdd acc.2 r.amount))
    (0, 0)

/-- One rendered transaction line:
`f"{symbol} {amount_str:>10} - {description} {category_str}"`. -/
def renderRow (r : TxRow) : String :=
  let symbol := if r.transaction_type == "INCOME" then "💰" else "💳"
  let amount_str := "$" ++ moneyNum r.amount
  let description :=
    if r.is_recurring then
      r.description ++ " (🔄 " ++ pyOptStr r.recurrence_period ++ ")"
    else r.description
  let category_str :=
    match r.category_name with
    | some n => if n == "" then "[Uncategorized]" else "[" ++ n ++ "]"
    | none => "[Uncategorized]"
  symbol ++ " " ++ padLeft 10 amount_str ++ " - " ++ description ++ " " ++
    category_str

/-- `"\n".join(lines)`. -/
def joinLines : List String → String
  | [] => ""
  | [s] => s
  | s :: rest => s ++ "\n" ++ joinLines rest

/-- The three summary lines plus their header (the exact f-strings of the
source, including their alignment blanks). -/
def summaryLines (total_income total_expense : ℚ) : List String :=
  [ "\n📊 Summary:",
    "💰 Total Income:  $" ++ moneyNum total_income,
    "💳 Total Expense: $" ++ moneyNum total_expense,
    "📈 Net Change:    $" ++ moneyNum (ratSub total_income total_expense) ]

/-- Embedding of `ResponseGenerator.format_transaction_data(rows)`
(`backend/routers/response_generator.py`).  `Except.error` models the
`ValueError` escaping when a stored date does not parse.  Mirrors the
source: empty input short-circuits to a fixed message; otherwise rows are
grouped by date (dict insertion order), the totals accumulated in row
order, the date keys visited in descending order — each contributing a
header line and its rows sorted (stably) by transaction type — and the
summary block appended, everything joined with newlines. -/
def format_transaction_data (rows : List TxRow) : Except String String :=
  if rows.isEmpty then
    Except.ok "No transactions found for the specified period."
  else
    let grouped := groupByDate rows
    let totals := totalsFold rows
    let total_expense := totals.1
    let total_income := totals.2
    let keys := sortDatesDesc (grouped.map Prod.fst)
    match
      keys.mapM (fun ds =>
        match parseISO ds with
        | none =>
            Except.error ("time data '" ++ ds ++
              "' does not match format '%Y-%m-%d'")
        | some (y, m, d) =>
            Except.ok (("\n📅 " ++ longDate y m d) ::
              (sortRowsByType (lookupGroup ds grouped)).map renderRow))
    with
    | Except.error e => Except.error e
    | Except.ok blocks =>
        Except.ok (joinLines (blocks.flatten ++
          summaryLines total_income total_expense))

/-! ### Specification-side definitions

These restate, in the spec's own terms (filtering and explicit sums
instead of the dictionary built by the loop), what the formatter is
claimed to produce; the theorems below compare them with the embedded
source functions. -/

/-- The distinct dates of the rows, in first-occurrence order. -/
def specDates (rows : List TxRow) : List String :=
  (rows.map TxRow.date).foldl
    (fun ks d => if ks.contains d then ks else ks ++ [d]) []

/-- Spec-side total income: the sum of the amounts of all non-`EXPENSE`
rows. -/
def specTotalIncome (rows : List TxRow) : ℚ :=
  (rows.filter (fun r => r.transaction_type != "EXPENSE")).foldl
    (fun a r => ratAdd a r.amount) 0

/-- Spec-side total expense: the sum of the amounts of all `EXPENSE`
rows. -/
def specTotalExpense (rows : List TxRow) : ℚ :=
  (rows.filter (fun r => r.transaction_type == "EXPENSE")).foldl
    (fun a r => ratAdd a r.amount) 0

/-- Spec-side date block: the header line of one date followed by the
rendered lines of exactly the rows of that date (stably ordered by
transaction type). -/
def specBlock (rows : List TxRow) (ds : String) : List String :=
  match parseISO ds with
  | some (y, m, d) =>
      ("\n📅 " ++ longDate y m d) ::
        (sortRowsByType (rows.filter (fun r => r.date == ds))).map renderRow
  | none => []

/-- A sample stored transaction row (used to instantiate theorems at a
concrete input). -/
def sampleRow : TxRow :=
  ⟨1, 5, "2026-10-10", "tea", false, none, "EXPENSE", some "Food"⟩

/-! ## Theorems -/

/-! ### Shared helper lemmas -/

/-- Setting a key makes it retrievable. -/
theorem getParam_setParam (k : String) (v : PValue) (ps : Params) :
    getParam k (setParam k v ps) = some v := by
  induction ps with
  | nil => simp [setParam, getParam]
  | cons hd tl ih =>
      obtain ⟨k', v'⟩ := hd
      by_cases h : k' == k
      · simp [setParam, getParam, h]
      · simp only [setParam, h, Bool.false_eq_true, if_false, getParam, ih]

/-- The case analysis of `generate_sql_with_llm`: every produced plan is
the failure plan or one of the six template plans with its extracted
parameters. -/
theorem generate_shape (today : PDate) (p s : String) :
    generate_sql_with_llm today p s =
      ⟨"", [], "", false, some "Could not understand the command"⟩ ∨
    generate_sql_with_llm today p s = ⟨sqlShowTx, [], "select", true, none⟩ ∨
    generate_sql_with_llm today p s = ⟨sqlShowCat, [], "select", true, none⟩ ∨
    (∃ n t, generate_sql_with_llm today p s =
      ⟨sqlAddCat, [("name", PValue.str n), ("type", PValue.str t)],
       "insert", true, none⟩) ∨
    (∃ a dt de, generate_sql_with_llm today p s =
      ⟨sqlAddTx, [("amount", PValue.num a), ("date", PValue.str dt),
                  ("description", PValue.str de), ("type", PValue.str "EXPENSE")],
       "insert", true, none⟩) ∨
    (∃ o n, generate_sql_with_llm today p s =
      ⟨sqlUpdCat, [("old_name", PValue.str o), ("new_name", PValue.str n)],
       "update", true, none⟩) ∨
    (∃ n, generate_sql_with_llm today p s =
      ⟨sqlDelCat, [("name", PValue.str n)], "delete", true, none⟩) := by
  unfold generate_sql_with_llm
  dsimp only
  split
  · exact Or.inr (Or.inl rfl)
  · split
    · exact Or.inr (Or.inr (Or.inl rfl))
    · split
      · exact Or.inr (Or.inr (Or.inr (Or.inl ⟨_, _, rfl⟩)))
      · split
        · exact Or.inr (Or.inr (Or.inr (Or.inr (Or.inl ⟨_, _, _, rfl⟩))))
        · split
          · exact Or.inr (Or.inr (Or.inr (Or.inr (Or.inr (Or.inl ⟨_, _, rfl⟩)))))
          · split
            · exact Or.inr (Or.inr (Or.inr (Or.inr (Or.inr (Or.inr ⟨_, rfl⟩)))))
            · exact Or.inl rfl

/-- Every successful plan is executed by the backend executor: the first
store action is always the execution of the plan's statement with the
user-id-injected parameter map (there is no pre-execution inspection of
the statement text). -/
theorem backend_exec_head (plan : QueryResult) (uid : Int) (db : DbOutcome)
    (h : plan.success = true) :
    (execute_sql_query plan uid db).2.head? =
      some (DbAction.exec plan.sql
        (setParam "user_id" (PValue.int uid) plan.params)) := by
  unfold execute_sql_query
  rw [if_neg (by simp [h])]
  cases db <;> dsimp only <;> split <;> rfl

/-! ### C4 — classifier returns a label from the closed set, defaulting
to `view` -/

/-- C4: every classifier output is one of the four labels; a reply whose
normalized content is outside the closed label set yields the default
label, and a raised exception yields the default label (never an
error). -/
theorem c4_classifier_closed_set :
    (∀ llm : Except String String, classify_crud_intent llm ∈ valid_intents) ∧
    (∀ content : String, strLower (strTrim content) ∉ valid_intents →
      classify_crud_intent (Except.ok content) = default_intent) ∧
    (∀ e : String, classify_crud_intent (Except.error e) = default_intent) := by
  refine ⟨?_, ?_, ?_⟩
  · intro llm
    cases llm with
    | error e => simp [classify_crud_intent, default_intent, valid_intents]
    | ok content =>
        simp only [classify_crud_intent]
        split
        · next h => exact List.mem_of_elem_eq_true h
        · simp [default_intent, valid_intents]
  · intro content h
    simp only [classify_crud_intent]
    rw [if_neg]
    intro hc
    exact h (List.mem_of_elem_eq_true hc)
  · intro e
    rfl

/-- C4 witness: a reply `" banana "` is outside the closed set and is
classified as the default label, which is in the closed set. -/
theorem c4_witness :
    classify_crud_intent (Except.ok " banana ") = default_intent ∧
    classify_crud_intent (Except.ok " banana ") ∈ valid_intents :=
  ⟨c4_classifier_closed_set.2.1 " banana " (by decide),
   c4_classifier_closed_set.1 _⟩

/-! ### C1 — missing-WHERE rejection for update/delete -/

/-- C1 counterexample: a successful `delete` plan with no filtering
clause is not rejected by the backend executor — it is executed and
committed with `success = true`, contradicting the claim that such plans
are rejected with a safety error and never executed, for every synthesis
strategy. -/
theorem c1_counterexample :
    containsSub (strLower "delete from categories") "where" = false ∧
    execute_sql_query ⟨"delete from categories", [], "delete", true, none⟩ 1
        (DbOutcome.ok [] 3) =
      ({ success := true, error := none, operation := some "delete",
         data := some (ExecData.count 3) },
       [DbAction.exec "delete from categories" [("user_id", PValue.int 1)],
        DbAction.commit, DbAction.closeCursor, DbAction.closeConn]) :=
  ⟨rfl, rfl⟩

/-- C1 (amended): the standalone agent executor rejects every declared
`update`/`delete` statement whose cleaned text has no `where`, raising
the safety error without performing any store action but the close; and
every successful plan the backend pattern strategy declares `update` or
`delete` does contain `where` in its statement text (the backend executor
itself performs no such check). -/
theorem c1_where_clause_gate :
    (∀ (query operation_type : String) (db : DbOutcome),
      (operation_type = "update" ∨ operation_type = "delete") →
      containsSub (strLower (cleanQuery query)) "where" = false →
      agentExecuteSqlQuery query operation_type db =
        (Except.error ("Safety Error: " ++ strUpper operation_type ++
          " statement without a WHERE clause detected.\nQuery: " ++ query),
         [DbAction.closeConn])) ∧
    (∀ (today : PDate) (p s : String),
      (generate_sql_with_llm today p s).success = true →
      ((generate_sql_with_llm today p s).operation = "update" ∨
        (generate_sql_with_llm today p s).operation = "delete") →
      containsSub (strLower (generate_sql_with_llm today p s).sql) "where"
        = true) := by
  constructor
  · intro query operation_type db h1 h2
    rcases h1 with rfl | rfl <;> simp [agentExecuteSqlQuery, h2]
  · intro today p s hs hop
    rcases generate_shape today p s with h | h | h | ⟨n, t, h⟩ | ⟨a, dt, de, h⟩
      | ⟨o, n, h⟩ | ⟨n, h⟩ <;> rw [h] at hs hop ⊢ <;> dsimp only at hs hop ⊢ <;>
      first
        | (exact absurd hs (by decide))
        | (revert hop; decide)

/-- C1 witness: the safety rejection at a concrete unfiltered `delete`,
and the `where` of the backend's concrete update-category plan. -/
theorem c1_where_clause_gate_witness :
    agentExecuteSqlQuery "delete from transactions" "delete"
        (DbOutcome.ok [] 0) =
      (Except.error ("Safety Error: DELETE statement without a WHERE clause detected.\nQuery: delete from transactions"),
       [DbAction.closeConn]) ∧
    containsSub
      (strLower (generate_sql_with_llm ⟨2026, 10, 12⟩ ""
        "update category 'food' to 'groceries'").sql) "where" = true := by
  constructor
  · have h := c1_where_clause_gate.1 "delete from transactions" "delete"
      (DbOutcome.ok [] 0) (Or.inr rfl) (by decide)
    simpa using h
  · exact c1_where_clause_gate.2 ⟨2026, 10, 12⟩ "" "update category 'food' to 'groceries'"
      (by decide) (Or.inl (by decide))

/-! ### C3 — schema-destructive keywords -/

/-- C3 counterexample: a successful plan whose statement text contains
`drop table` is not rejected — the backend executor runs it against the
store and reports success, contradicting the claimed rejection before
execution regardless of declared operation kind. -/
theorem c3_counterexample :
    containsSub (strLower "drop table transactions") "drop table" = true ∧
    execute_sql_query ⟨"drop table transactions", [], "select", true, none⟩ 7
        (DbOutcome.ok [] 0) =
      ({ success := true, error := none, operation := some "select",
         data := some (ExecData.rows []) },
       [DbAction.exec "drop table transactions" [("user_id", PValue.int 7)],
        DbAction.closeCursor, DbAction.closeConn]) :=
  ⟨rfl, rfl⟩

/-- C3 (amended): no executor checks for schema-destructive keywords —
the backend executor executes every successful plan whatever its text,
and the agent executor executes every statement that passes the
missing-WHERE check; the deterministic pattern strategy, however, never
emits `drop table` or `alter table` in a statement text. -/
theorem c3_no_destructive_keyword_check :
    (∀ (plan : QueryResult) (uid : Int) (db : DbOutcome),
      plan.success = true →
      (execute_sql_query plan uid db).2.head? =
        some (DbAction.exec plan.sql
          (setParam "user_id" (PValue.int uid) plan.params))) ∧
    (∀ (query operation_type : String) (db : DbOutcome),
      (((operation_type == "update" || operation_type == "delete") &&
        !containsSub (strLower (cleanQuery query)) "where") = false) →
      (agentExecuteSqlQuery query operation_type db).2.head? =
        some (DbAction.exec (cleanQuery query) [])) ∧
    (∀ (today : PDate) (p s : String),
      (generate_sql_with_llm today p s).success = true →
      containsSub (strLower (generate_sql_with_llm today p s).sql)
        "drop table" = false ∧
      containsSub (strLower (generate_sql_with_llm today p s).sql)
        "alter table" = false) := by
  refine ⟨?_, ?_, ?_⟩
  · exact backend_exec_head
  · intro query operation_type db h
    unfold agentExecuteSqlQuery
    rw [if_neg (by simp [h])]
    cases db <;> dsimp only
    · split <;> rfl
    · rfl
  · intro today p s hs
    rcases generate_shape today p s with h | h | h | ⟨n, t, h⟩ | ⟨a, dt, de, h⟩
      | ⟨o, n, h⟩ | ⟨n, h⟩ <;> rw [h] at hs ⊢ <;> dsimp only at hs ⊢ <;>
      first
        | (exact absurd hs (by decide))
        | decide

/-- C3 witness: both executors execute concrete `drop table` statements
(declared `select` and `view` respectively), and a concrete successful
pattern plan is free of the destructive keywords. -/
theorem c3_no_destructive_keyword_check_witness :
    (execute_sql_query ⟨"drop table transactions", [], "select", true, none⟩ 7
        (DbOutcome.ok [] 0)).2.head? =
      some (DbAction.exec "drop table transactions"
        [("user_id", PValue.int 7)]) ∧
    (agentExecuteSqlQuery "drop table transactions" "view"
        (DbOutcome.ok [] 0)).2.head? =
      some (DbAction.exec (cleanQuery "drop table transactions") []) ∧
    containsSub (strLower (generate_sql_with_llm ⟨2026, 10, 12⟩ ""
        "delete category 'rent'").sql) "drop table" = false := by
  refine ⟨?_, ?_, ?_⟩
  · exact c3_no_destructive_keyword_check.1
      ⟨"drop table transactions", [], "select", true, none⟩ 7
      (DbOutcome.ok [] 0) rfl
  · exact c3_no_destructive_keyword_check.2.1 "drop table transactions" "view"
      (DbOutcome.ok [] 0) (by decide)
  · exact (c3_no_destructive_keyword_check.2.2 ⟨2026, 10, 12⟩ ""
      "delete category 'rent'" (by decide)).1

/-! ### C5 — commit / rollback and uniform error results -/

/-- C5 counterexample: the backend executor wraps a store error as
`success = false` with the bare error text only — the original statement
is not part of the error detail, contradicting the claim that the uniform
error result carries the original statement. -/
theorem c5_counterexample :
    execute_sql_query
        ⟨"delete from categories where user_id = :user_id", [], "delete",
         true, none⟩ 1 (DbOutcome.err "no such table: categories") =
      ({ success := false, error := some "no such table: categories",
         operation := none, data := none },
       [DbAction.exec "delete from categories where user_id = :user_id"
          [("user_id", PValue.int 1)],
        DbAction.rollback, DbAction.closeCursor, DbAction.closeConn]) ∧
    containsSub "no such table: categories"
      "delete from categories where user_id = :user_id" = false :=
  ⟨rfl, rfl⟩

/-- C5 (amended): for every mutating plan the backend executor commits on
success and returns the affected-row count, and a store error triggers a
rollback and is returned as a uniform `success = false` result carrying
the bare error text (no statement attached, never an exception); the
standalone agent executor instead raises a `RuntimeError` that does embed
the original statement. -/
theorem c5_mutation_error_handling :
    (∀ (plan : QueryResult) (uid : Int) (rows : List Row) (n : Int),
      plan.success = true → (strLower plan.operation == "select") = false →
      execute_sql_query plan uid (DbOutcome.ok rows n) =
        ({ success := true, error := none, operation := some plan.operation,
           data := some (ExecData.count n) },
         [DbAction.exec plan.sql
            (setParam "user_id" (PValue.int uid) plan.params),
          DbAction.commit, DbAction.closeCursor, DbAction.closeConn])) ∧
    (∀ (plan : QueryResult) (uid : Int) (msg : String),
      plan.success = true → (strLower plan.operation == "select") = false →
      execute_sql_query plan uid (DbOutcome.err msg) =
        ({ success := false, error := some msg, operation := none,
           data := none },
         [DbAction.exec plan.sql
            (setParam "user_id" (PValue.int uid) plan.params),
          DbAction.rollback, DbAction.closeCursor, DbAction.closeConn])) ∧
    (∀ (query operation_type msg : String),
      (((operation_type == "update" || operation_type == "delete") &&
        !containsSub (strLower (cleanQuery query)) "where") = false) →
      agentExecuteSqlQuery query operation_type (DbOutcome.err msg) =
        (Except.error ("Database error: " ++ msg ++ "\nQuery: " ++ query),
         [DbAction.exec (cleanQuery query) [], DbAction.closeConn])) := by
  refine ⟨?_, ?_, ?_⟩
  · intro plan uid rows n h hsel
    simp [execute_sql_query, h, hsel]
  · intro plan uid msg h hsel
    have hne : ¬ strLower plan.operation = "select" := by
      intro hc
      rw [hc] at hsel
      simp at hsel
    simp [execute_sql_query, h, hsel, hne]
  · intro query operation_type msg h
    unfold agentExecuteSqlQuery
    rw [if_neg (by simp [h])]

/-- C5 witness: a concrete mutating plan committing with rowcount 2, the
same plan rolled back on a store error, and the agent executor's raised
error embedding the failing statement. -/
theorem c5_mutation_error_handling_witness :
    execute_sql_query
        ⟨"delete from categories where user_id = :user_id", [], "delete",
         true, none⟩ 4 (DbOutcome.ok [] 2) =
      ({ success := true, error := none, operation := some "delete",
         data := some (ExecData.count 2) },
       [DbAction.exec "delete from categories where user_id = :user_id"
          [("user_id", PValue.int 4)],
        DbAction.commit, DbAction.closeCursor, DbAction.closeConn]) ∧
    execute_sql_query
        ⟨"delete from categories where user_id = :user_id", [], "delete",
         true, none⟩ 4 (DbOutcome.err "database is locked") =
      ({ success := false, error := some "database is locked",
         operation := none, data := none },
       [DbAction.exec "delete from categories where user_id = :user_id"
          [("user_id", PValue.int 4)],
        DbAction.rollback, DbAction.closeCursor, DbAction.closeConn]) ∧
    agentExecuteSqlQuery "select * from transactions" "view"
        (DbOutcome.err "database is locked") =
      (Except.error "Database error: database is locked\nQuery: select * from transactions",
       [DbAction.exec "select * from transactions" [], DbAction.closeConn]) := by
  refine ⟨?_, ?_, ?_⟩
  · exact c5_mutation_error_handling.1
      ⟨"delete from categories where user_id = :user_id", [], "delete",
       true, none⟩ 4 [] 2 rfl (by decide)
  · exact c5_mutation_error_handling.2.1
      ⟨"delete from categories where user_id = :user_id", [], "delete",
       true, none⟩ 4 "database is locked" rfl (by decide)
  · have h := c5_mutation_error_handling.2.2 "select * from transactions"
      "view" "database is locked" (by decide)
    simpa using h

/-! ### C6 — amount rounding and bounds -/

/-- The rounded cent count of a positive amount is nonnegative. -/
theorem roundCents_nonneg {v : ℚ} (hv : 0 < v) : 0 ≤ roundHalfEvenCents v := by
  have ha : 0 < v.num := Rat.num_pos.2 hv
  have hd : (0 : Int) < (v.den : Int) := by exact_mod_cast v.den_pos
  have hf : 0 ≤ Int.fdiv (v.num * 100) (v.den : Int) :=
    Int.fdiv_nonneg (by positivity) (le_of_lt hd)
  unfold roundHalfEvenCents
  dsimp only
  split
  · exact hf
  · split
    · linarith
    · split
      · exact hf
      · linarith

/-- The rounded cent count of an amount at most `10^9` is at most
`10^11`. -/
theorem roundCents_le {v : ℚ} (hv : v ≤ 1000000000) :
    roundHalfEvenCents v ≤ 100000000000 := by
  have hd : (0 : Int) < (v.den : Int) := by exact_mod_cast v.den_pos
  have hnum : v.num ≤ 1000000000 * (v.den : Int) := by
    have h := Rat.le_def.1 hv
    simpa using h
  have hn : v.num * 100 ≤ 100000000000 * (v.den : Int) := by linarith
  have hf : Int.fdiv (v.num * 100) (v.den : Int) ≤ 100000000000 := by
    rw [Int.fdiv_eq_ediv _ (le_of_lt hd)]
    calc v.num * 100 / (v.den : Int)
        ≤ 100000000000 * (v.den : Int) / (v.den : Int) :=
          Int.ediv_le_ediv hd hn
      _ = (v.den : Int) * 100000000000 / (v.den : Int) := by ring_nf
      _ = 100000000000 := Int.mul_ediv_cancel_left _ (ne_of_gt hd)
  -- in the two branches that round up, the remainder is positive, so the
  -- floor is strictly below the bound
  have hup : v.num * 100 - (v.den : Int) * Int.fdiv (v.num * 100) (v.den : Int)
      ≥ 1 → Int.fdiv (v.num * 100) (v.den : Int) + 1 ≤ 100000000000 := by
    intro hr
    by_contra hlt
    push_neg at hlt
    have hfeq : Int.fdiv (v.num * 100) (v.den : Int) = 100000000000 := by
      omega
    rw [hfeq] at hr
    nlinarith
  unfold roundHalfEvenCents
  dsimp only
  split
  · exact hf
  · split
    · next h1 h2 =>
        refine hup ?_
        omega
    · split
      · exact hf
      · next h1 h2 h3 =>
          refine hup ?_
          omega

/-- C6 counterexample: the amount `0.004` is accepted (it is positive and
below the ceiling), but the stored value `round(0.004, 2)` is `0`, which
is not strictly greater than `0` — contradicting the claim that every
accepted amount is stored as a strictly positive value. -/
theorem c6_counterexample :
    acceptAmount (mkRat 1 250) = Except.ok 0 ∧ ¬ ((0 : ℚ) > 0) :=
  ⟨rfl, by decide⟩

/-- C6 (amended): every amount accepted by the schema validator has its
stored value equal to the input rounded (half-even) to two decimal
places; the input is strictly positive and at most one billion, and the
stored value is nonnegative and at most one billion (but can be `0`
after rounding).  The pattern-extraction path stores the matched decimal
literal verbatim, enforcing neither positivity nor the ceiling:
`extract_amount` accepts `$0` and truncates `$123.456` to `123.45`
instead of rounding. -/
theorem c6_amount_validation :
    (∀ (v w : ℚ), acceptAmount v = Except.ok w →
      w = pyRound2 v ∧ 0 < v ∧ v ≤ 1000000000 ∧
      0 ≤ w ∧ w ≤ 1000000000) ∧
    extract_amount "$0" = 0 ∧
    extract_amount "$123.456" = mkRat 12345 100 := by
  refine ⟨?_, rfl, rfl⟩
  intro v w hok
  unfold acceptAmount validate_amount at hok
  split at hok
  · exact absurd hok (by simp)
  · next hpos =>
    split at hok
    · exact absurd hok (by simp)
    · next hceil =>
      have hw : w = pyRound2 v := (Except.ok.inj hok).symm
      push_neg at hpos hceil
      have hv : 0 < v := hpos
      refine ⟨hw, hv, hceil, ?_, ?_⟩
      · rw [hw]
        unfold pyRound2
        rw [Rat.mkRat_eq_div]
        have := roundCents_nonneg hv
        positivity
      · rw [hw]
        unfold pyRound2
        rw [Rat.mkRat_eq_div]
        rw [div_le_iff₀ (by norm_num : (0:ℚ) < (100:ℕ))]
        have hc := roundCents_le hceil
        calc ((roundHalfEvenCents v : ℚ)) ≤ (100000000000 : ℚ) := by
              exact_mod_cast hc
          _ = 1000000000 * (100:ℕ) := by norm_num

/-- C6 witness: the concrete amount `47` is accepted, stored as its own
rounding, and lies within the bounds. -/
theorem c6_amount_validation_witness :
    (47 : ℚ) = pyRound2 47 ∧ 0 < (47 : ℚ) ∧ (47 : ℚ) ≤ 1000000000 ∧
      0 ≤ (47 : ℚ) ∧ (47 : ℚ) ≤ 1000000000 :=
  c6_amount_validation.1 47 47 rfl

/-! ### C2 — user scoping -/

/-- C2: before binding, the backend executor injects the acting user's
identifier into every executed plan's parameter map (where it is
retrievable under the key `user_id`), and every statement text produced
by the pattern synthesis strategy references the `:user_id` parameter. -/
theorem c2_user_scoping :
    (∀ (plan : QueryResult) (uid : Int) (db : DbOutcome),
      plan.success = true →
      (execute_sql_query plan uid db).2.head? =
        some (DbAction.exec plan.sql
          (setParam "user_id" (PValue.int uid) plan.params)) ∧
      getParam "user_id" (setParam "user_id" (PValue.int uid) plan.params) =
        some (PValue.int uid)) ∧
    (∀ (today : PDate) (p s : String),
      (generate_sql_with_llm today p s).success = true →
      containsSub (generate_sql_with_llm today p s).sql ":user_id" = true) := by
  constructor
  · intro plan uid db h
    exact ⟨backend_exec_head plan uid db h, getParam_setParam _ _ _⟩
  · intro today p s hs
    rcases generate_shape today p s with h | h | h | ⟨n, t, h⟩ | ⟨a, dt, de, h⟩
      | ⟨o, n, h⟩ | ⟨n, h⟩ <;> rw [h] at hs ⊢ <;> dsimp only at hs ⊢ <;>
      first
        | (exact absurd hs (by decide))
        | decide

/-- C2 witness: executing the concrete show-categories plan as user 9
binds `user_id = 9`, and the concrete pattern statement for
`"show me categories"` filters on `:user_id`. -/
theorem c2_user_scoping_witness :
    ((execute_sql_query ⟨sqlShowCat, [], "select", true, none⟩ 9
        (DbOutcome.ok [] 0)).2.head? =
      some (DbAction.exec sqlShowCat [("user_id", PValue.int 9)]) ∧
      getParam "user_id" [("user_id", PValue.int 9)] =
        some (PValue.int 9)) ∧
    containsSub (generate_sql_with_llm ⟨2026, 10, 12⟩ ""
      "show me categories").sql ":user_id" = true :=
  ⟨c2_user_scoping.1 ⟨sqlShowCat, [], "select", true, none⟩ 9
      (DbOutcome.ok [] 0) rfl,
   c2_user_scoping.2 ⟨2026, 10, 12⟩ "" "show me categories" (by decide)⟩

/-! ### C8 — determinism of pattern synthesis -/

/-- C8 counterexample: two runs on the identical input text
`"add tea for $2"` on consecutive days produce different plans (the
extracted `date` parameter is the run's current date), so identical input
alone does not always yield an identical statement plan. -/
theorem c8_counterexample :
    generate_sql_with_llm ⟨2026, 10, 11⟩ "" "add tea for $2" ≠
      generate_sql_with_llm ⟨2026, 10, 12⟩ "" "add tea for $2" := by
  decide

/-- C8 (amended): for a fixed current date, pattern synthesis is a pure
function of the input text — in particular it ignores the category
context embedded in the system prompt — and the statement text of every
successful plan is drawn from the six fixed templates (the generative
fallback contributes nothing). -/
theorem c8_deterministic_synthesis :
    (∀ (today : PDate) (p₁ p₂ s : String),
      generate_sql_with_llm today p₁ s = generate_sql_with_llm today p₂ s) ∧
    (∀ (today : PDate) (p s : String),
      (generate_sql_with_llm today p s).success = true →
      (generate_sql_with_llm today p s).sql ∈ sqlTemplates) := by
  constructor
  · intro today p₁ p₂ s
    rfl
  · intro today p s hs
    rcases generate_shape today p s with h | h | h | ⟨n, t, h⟩ | ⟨a, dt, de, h⟩
      | ⟨o, n, h⟩ | ⟨n, h⟩ <;> rw [h] at hs ⊢ <;> dsimp only at hs ⊢ <;>
      first
        | (exact absurd hs (by decide))
        | (simp [sqlTemplates])

/-- C8 witness: on a fixed date, two runs with different system prompts
on `"delete category 'rent'"` agree, and the produced statement is one of
the six templates. -/
theorem c8_deterministic_synthesis_witness :
    generate_sql_with_llm ⟨2026, 10, 12⟩ "prompt A" "delete category 'rent'" =
      generate_sql_with_llm ⟨2026, 10, 12⟩ "prompt B" "delete category 'rent'" ∧
    (generate_sql_with_llm ⟨2026, 10, 12⟩ "prompt A"
      "delete category 'rent'").sql ∈ sqlTemplates :=
  ⟨c8_deterministic_synthesis.1 ⟨2026, 10, 12⟩ "prompt A" "prompt B"
      "delete category 'rent'",
   c8_deterministic_synthesis.2 ⟨2026, 10, 12⟩ "prompt A"
      "delete category 'rent'" (by decide)⟩

/-! ### C10 — pattern-matched transaction inserts are always EXPENSE -/

/-- C10: every plan whose statement is the add-transaction template binds
the `type` parameter to `"EXPENSE"` — no pattern-matched input produces
an `INCOME` transaction insert. -/
theorem c10_pattern_inserts_expense (today : PDate) (p s : String)
    (h : (generate_sql_with_llm today p s).sql = sqlAddTx) :
    getParam "type" (generate_sql_with_llm today p s).params =
      some (PValue.str "EXPENSE") := by
  rcases generate_shape today p s with h' | h' | h' | ⟨n, t, h'⟩
    | ⟨a, dt, de, h'⟩ | ⟨o, n, h'⟩ | ⟨n, h'⟩ <;> rw [h'] at h ⊢ <;>
    dsimp only at h ⊢ <;>
    first
      | (exact absurd h (by decide))
      | rfl

/-- C10 witness: the concrete input `"add tea for $2"` produces the
add-transaction template with `type = "EXPENSE"`. -/
theorem c10_pattern_inserts_expense_witness :
    getParam "type" (generate_sql_with_llm ⟨2026, 10, 12⟩ ""
      "add tea for $2").params = some (PValue.str "EXPENSE") :=
  c10_pattern_inserts_expense ⟨2026, 10, 12⟩ "" "add tea for $2" (by decide)

/-! ### C7 — category resolution of the add-transaction rule -/

/-- C7 counterexample: the input `"add lunch for $10 for category
'food'"` explicitly names a category, yet the synthesized INSERT is the
fixed template whose category subquery selects the category named
`Other` — the text's category (`food`) appears nowhere in the statement
or its parameters, refuting the claimed three-step fallback (explicit
name, then inference, then fallback). -/
theorem c7_counterexample :
    generate_sql_with_llm ⟨2026, 10, 12⟩ ""
        "add lunch for $10 for category 'food'" =
      ⟨sqlAddTx,
       [("amount", PValue.num 10), ("date", PValue.str "2026-10-12"),
        ("description", PValue.str "lunch"), ("type", PValue.str "EXPENSE")],
       "insert", true, none⟩ ∧
    containsSub sqlAddTx "name = 'Other'" = true ∧
    containsSub (strLower sqlAddTx) "food" = false :=
  ⟨rfl, rfl, rfl⟩

/-- C7 (amended): every INSERT the pattern strategy synthesizes is either
the category-insert template, or the transaction-insert template — whose
category is always resolved by the fixed fallback subquery on the
category named `Other`, with no category extracted into the parameter
map. -/
theorem c7_category_fallback_only (today : PDate) (p s : String)
    (h : (generate_sql_with_llm today p s).operation = "insert") :
    (generate_sql_with_llm today p s).sql = sqlAddCat ∨
      ((generate_sql_with_llm today p s).sql = sqlAddTx ∧
       containsSub sqlAddTx "name = 'Other'" = true ∧
       getParam "category" (generate_sql_with_llm today p s).params = none ∧
       getParam "category_id" (generate_sql_with_llm today p s).params
         = none) := by
  rcases generate_shape today p s with h' | h' | h' | ⟨n, t, h'⟩
    | ⟨a, dt, de, h'⟩ | ⟨o, n, h'⟩ | ⟨n, h'⟩ <;> rw [h'] at h ⊢ <;>
    dsimp only at h ⊢ <;>
    first
      | (exact absurd h (by decide))
      | (left; rfl)
      | (right; exact ⟨rfl, rfl, rfl, rfl⟩)

/-- C7 witness: the amended statement at the concrete input that names a
category explicitly. -/
theorem c7_category_fallback_only_witness :
    (generate_sql_with_llm ⟨2026, 10, 12⟩ ""
        "add lunch for $10 for category 'food'").sql = sqlAddCat ∨
      ((generate_sql_with_llm ⟨2026, 10, 12⟩ ""
          "add lunch for $10 for category 'food'").sql = sqlAddTx ∧
       containsSub sqlAddTx "name = 'Other'" = true ∧
       getParam "category" (generate_sql_with_llm ⟨2026, 10, 12⟩ ""
         "add lunch for $10 for category 'food'").params = none ∧
       getParam "category_id" (generate_sql_with_llm ⟨2026, 10, 12⟩ ""
         "add lunch for $10 for category 'food'").params = none) :=
  c7_category_fallback_only ⟨2026, 10, 12⟩ ""
    "add lunch for $10 for category 'food'" (by decide)

/-! ### C9 — transaction listing format -/

/-- Inserting a row into the date dictionary either leaves the key list
unchanged (key present) or appends the new date at the end. -/
theorem groupInsert_keys (r : TxRow) (acc : List (String × List TxRow)) :
    (groupInsert r acc).map Prod.fst =
      (if (acc.map Prod.fst).contains r.date then acc.map Prod.fst
       else acc.map Prod.fst ++ [r.date]) := by
  induction acc with
  | nil => simp [groupInsert]
  | cons hd tl ih =>
      obtain ⟨d', rs⟩ := hd
      by_cases h : d' = r.date
      · subst h
        simp [groupInsert, List.contains_cons]
      · have hb : (d' == r.date) = false := beq_eq_false_iff_ne.2 h
        have hb' : (r.date == d') = false := beq_eq_false_iff_ne.2 (Ne.symm h)
        simp only [groupInsert, hb, Bool.false_eq_true, if_false, List.map_cons,
          List.contains_cons, hb', Bool.false_or, ih]
        split <;> simp

/-- The key list of the date dictionary is the distinct dates of the rows
in first-occurrence order. -/
theorem groupByDate_keys_general (rows : List TxRow) :
    ∀ acc : List (String × List TxRow),
      ((rows.foldl (fun a r => groupInsert r a) acc).map Prod.fst) =
        (rows.map TxRow.date).foldl
          (fun ks d => if ks.contains d then ks else ks ++ [d])
          (acc.map Prod.fst) := by
  induction rows with
  | nil => intro acc; rfl
  | cons r rs ih =>
      intro acc
      simp only [List.foldl_cons, List.map_cons]
      rw [ih (groupInsert r acc), groupInsert_keys]

/-- The date dictionary's keys are exactly `specDates`. -/
theorem groupByDate_keys (rows : List TxRow) :
    (groupByDate rows).map Prod.fst = specDates rows := by
  have h := groupByDate_keys_general rows []
  simpa [groupByDate, specDates] using h

/-- Looking a date up after one insertion: the inserted row is appended
to that date's group. -/
theorem lookupGroup_groupInsert (ds : String) (r : TxRow)
    (acc : List (String × List TxRow)) :
    lookupGroup ds (groupInsert r acc) =
      lookupGroup ds acc ++ (if r.date == ds then [r] else []) := by
  induction acc with
  | nil =>
      by_cases h : r.date = ds
      · subst h; simp [groupInsert, lookupGroup]
      · have hb : (r.date == ds) = false := beq_eq_false_iff_ne.2 h
        simp [groupInsert, lookupGroup, hb]
  | cons hd tl ih =>
      obtain ⟨d', rs⟩ := hd
      by_cases h1 : d' = r.date
      · subst h1
        by_cases h2 : r.date = ds
        · subst h2
          simp [groupInsert, lookupGroup]
        · have hb2 : (r.date == ds) = false := beq_eq_false_iff_ne.2 h2
          simp [groupInsert, lookupGroup, hb2]
      · have hb1 : (d' == r.date) = false := beq_eq_false_iff_ne.2 h1
        by_cases h2 : d' = ds
        · subst h2
          have hb : (r.date == d') = false :=
            beq_eq_false_iff_ne.2 fun hc => h1 hc.symm
          simp [groupInsert, lookupGroup, hb1, hb]
        · have hb2 : (d' == ds) = false := beq_eq_false_iff_ne.2 h2
          simp [groupInsert, lookupGroup, hb1, hb2, ih]

/-- Looking a date up in the date dictionary yields exactly the rows of
that date, in row order. -/
theorem lookupGroup_groupByDate_general (ds : String) (rows : List TxRow) :
    ∀ acc, lookupGroup ds (rows.foldl (fun a r => groupInsert r a) acc) =
      lookupGroup ds acc ++ rows.filter (fun r => r.date == ds) := by
  induction rows with
  | nil => intro acc; simp
  | cons r rs ih =>
      intro acc
      simp only [List.foldl_cons]
      rw [ih (groupInsert r acc), lookupGroup_groupInsert, List.filter_cons]
      cases h : r.date == ds <;> simp [h, List.append_assoc]

/-- The dictionary built by the loop groups exactly like filtering. -/
theorem lookupGroup_groupByDate (ds : String) (rows : List TxRow) :
    lookupGroup ds (groupByDate rows) =
      rows.filter (fun r => r.date == ds) := by
  have h := lookupGroup_groupByDate_general ds rows []
  simpa [groupByDate, lookupGroup] using h

/-- The totals loop computes the filtered sums (with arbitrary starting
accumulators). -/
theorem totalsFold_general (rows : List TxRow) :
    ∀ e i : ℚ,
      rows.foldl
        (fun acc r =>
          if r.transaction_type == "EXPENSE" then (ratAdd acc.1 r.amount, acc.2)
          else (acc.1, ratAdd acc.2 r.amount)) (e, i) =
      ((rows.filter (fun r => r.transaction_type == "EXPENSE")).foldl
          (fun a r => ratAdd a r.amount) e,
       (rows.filter (fun r => r.transaction_type != "EXPENSE")).foldl
          (fun a r => ratAdd a r.amount) i) := by
  induction rows with
  | nil => intro e i; rfl
  | cons r rs ih =>
      intro e i
      cases h : r.transaction_type == "EXPENSE" <;>
        simp only [List.foldl_cons, List.filter_cons, h, bne, Bool.not_true,
          Bool.not_false, Bool.false_eq_true, if_false, if_true] <;>
        exact ih _ _

/-- The totals loop computes total expense and total income as the spec's
filtered sums. -/
theorem totalsFold_spec (rows : List TxRow) :
    totalsFold rows = (specTotalExpense rows, specTotalIncome rows) := by
  have h := totalsFold_general rows 0 0
  simpa [totalsFold, specTotalExpense, specTotalIncome] using h

/-- `mapM` over `Except` succeeds pointwise. -/
theorem mapM_ok {α β : Type} (f : α → Except String β) (g : α → β)
    (l : List α) (h : ∀ x ∈ l, f x = Except.ok (g x)) :
    l.mapM f = Except.ok (l.map g) := by
  induction l with
  | nil => rfl
  | cons x xs ih =>
      rw [List.mapM_cons, h x (List.mem_cons_self x xs),
        ih (fun y hy => h y (List.mem_cons_of_mem _ hy))]
      rfl

/-- Membership is preserved by sorted insertion. -/
theorem mem_insertSortedBy {α : Type} (le : α → α → Bool) (x y : α)
    (l : List α) : y ∈ insertSortedBy le x l ↔ y = x ∨ y ∈ l := by
  induction l with
  | nil => simp [insertSortedBy]
  | cons z zs ih =>
      simp only [insertSortedBy]
      split
      · simp
      · simp only [List.mem_cons, ih]
        tauto

/-- Membership is preserved by the stable sort. -/
theorem mem_sortBy {α : Type} (le : α → α → Bool) (x : α) (l : List α) :
    x ∈ sortBy le l ↔ x ∈ l := by
  induction l with
  | nil => simp [sortBy]
  | cons z zs ih =>
      simp only [sortBy, List.foldr_cons] at ih ⊢
      rw [mem_insertSortedBy]
      simp [ih]

/-- Every date in `specDates rows` is the date of some row. -/
theorem mem_specDates {ds : String} {rows : List TxRow}
    (h : ds ∈ specDates rows) : ds ∈ rows.map TxRow.date := by
  unfold specDates at h
  suffices hgen : ∀ (l : List String) (acc : List String),
      ds ∈ l.foldl (fun ks d => if ks.contains d then ks else ks ++ [d]) acc →
      ds ∈ acc ∨ ds ∈ l by
    rcases hgen (rows.map TxRow.date) [] h with hc | hc
    · simp at hc
    · exact hc
  intro l
  induction l with
  | nil => intro acc hacc; exact Or.inl hacc
  | cons d dl ih =>
      intro acc hacc
      simp only [List.foldl_cons] at hacc
      rcases ih _ hacc with hc | hc
      · by_cases hd : acc.contains d
        · rw [if_pos hd] at hc
          exact Or.inl hc
        · rw [if_neg hd] at hc
          rcases List.mem_append.1 hc with hc' | hc'
          · exact Or.inl hc'
          · simp at hc'
            subst hc'
            exact Or.inr (List.mem_cons_self _ _)
      · exact Or.inr (List.mem_cons_of_mem _ hc)

/-- C9 counterexample: the formatted reply for an empty select result is
the fixed no-transactions message, which contains no summary block — so
not every select result about transactions ends with a summary block. -/
theorem c9_counterexample :
    format_transaction_data [] =
      Except.ok "No transactions found for the specified period." ∧
    containsSub "No transactions found for the specified period."
      "Summary" = false :=
  ⟨rfl, rfl⟩

/-- C9 (amended): for every nonempty select result about transactions
(whose stored dates are well-formed), the formatted reply consists of the
rows grouped by date in descending date order — each date contributing a
header line and its rows rendered with the income/expense marker,
recurrence annotation when present, and category tag — followed by the
summary block with total income, total expense and net change; when no
income rows exist the computed total income is `0`.  (An empty result
instead yields a fixed no-transactions message.) -/
theorem c9_transaction_formatting (rows : List TxRow) (hne : rows ≠ [])
    (hdates : ∀ r ∈ rows, (parseISO r.date).isSome) :
    format_transaction_data rows =
      Except.ok (joinLines
        (((sortDatesDesc (specDates rows)).map (specBlock rows)).flatten ++
          summaryLines (specTotalIncome rows) (specTotalExpense rows))) ∧
    ((∀ r ∈ rows, r.transaction_type = "EXPENSE") →
      specTotalIncome rows = 0) := by
  constructor
  · unfold format_transaction_data
    rw [if_neg (by simp [hne])]
    dsimp only
    rw [groupByDate_keys]
    rw [totalsFold_spec]
    dsimp only
    rw [mapM_ok _ (specBlock rows) _ ?hall]
    case hall =>
      intro ds hds
      have hmem : ds ∈ rows.map TxRow.date :=
        mem_specDates ((mem_sortBy _ _ _).1 hds)
      obtain ⟨r, hr, hrd⟩ := List.mem_map.1 hmem
      have hsome : (parseISO ds).isSome := hrd ▸ hdates r hr
      obtain ⟨⟨y, m, d⟩, hp⟩ := Option.isSome_iff_exists.1 hsome
      rw [hp]
      unfold specBlock
      rw [hp, lookupGroup_groupByDate]
  · intro hall
    unfold specTotalIncome
    have hfil : rows.filter (fun r => r.transaction_type != "EXPENSE") = [] := by
      rw [List.filter_eq_nil_iff]
      intro r hr
      simp [hall r hr]
    rw [hfil]
    rfl

/-- C9 witness: the amended statement evaluated at one concrete expense
row. -/
theorem c9_transaction_formatting_witness :
    format_transaction_data [sampleRow] =
      Except.ok (joinLines
        (((sortDatesDesc (specDates [sampleRow])).map
            (specBlock [sampleRow])).flatten ++
          summaryLines (specTotalIncome [sampleRow])
            (specTotalExpense [sampleRow]))) ∧
    specTotalIncome [sampleRow] = 0 := by
  have h := c9_transaction_formatting [sampleRow] (by simp)
    (by
      intro r hr
      rw [List.mem_singleton] at hr
      subst hr
      decide)
  exact ⟨h.1, h.2 (by
    intro r hr
    rw [List.mem_singleton] at hr
    subst hr
    rfl)⟩

end FinanceApp
